import Mathlib

/-!
Verification of the LinkedIn lead-profiling repository (Next.js frontend +
FastAPI batch backend).  The frontend pages (`frontend/app/page.tsx`,
`frontend/app/manual-input/page.tsx`, the custom-evaluation page,
`frontend/middleware.ts`, `frontend/app/api/auth/login/route.ts`) are embedded
directly from their TypeScript source.  The backend orchestrator
(`backend/workflow.py`, `backend/main.py`) is not part of the source tree
available here; the definitions that stand for it are modelled from the
specification and are marked as such in their doc comments.

JavaScript string primitives (`split`, `trim`, `toLowerCase`, `includes`,
`startsWith`) are embedded as executable functions on `String.data` so that
every definition evaluates inside the kernel.
-/

set_option maxRecDepth 100000

namespace LinkedInICP

/-- Whitespace test used by the embedded `String.prototype.trim`: the
whitespace characters that occur in this code base's inputs. -/
def isWs (c : Char) : Bool := c = ' ' || c = '\t' || c = '\n' || c = '\r'

/-- Drop leading and trailing whitespace from a character list. -/
def trimChars (l : List Char) : List Char :=
  ((l.dropWhile isWs).reverse.dropWhile isWs).reverse

/-- Embedded JavaScript `s.trim()`. -/
def jsTrim (s : String) : String := ⟨trimChars s.data⟩

/-- Split a character list on a separator character; an empty input yields one
empty field, matching JavaScript `s.split(sep)`. -/
def splitCharsOn (sep : Char) : List Char → List (List Char)
  | [] => [[]]
  | c :: t =>
    let r := splitCharsOn sep t
    if c = sep then [] :: r
    else match r with
      | [] => [[c]]
      | h :: t' => (c :: h) :: t'

/-- Embedded JavaScript `s.split('\n')`. -/
def jsSplitLines (s : String) : List String :=
  (splitCharsOn '\n' s.data).map (fun l => ⟨l⟩)

/-- Embedded JavaScript `s.toLowerCase()`. -/
def jsToLower (s : String) : String := ⟨s.data.map Char.toLower⟩

/-- Embedded JavaScript `s.startsWith(pat)`. -/
def jsStartsWith (s pat : String) : Bool := pat.data.isPrefixOf s.data

/-- Substring occurrence test on character lists. -/
def listContainsSub (sub : List Char) : List Char → Bool
  | [] => sub.isEmpty
  | c :: t => sub.isPrefixOf (c :: t) || listContainsSub sub t

/-- Embedded JavaScript `s.includes(pat)`. -/
def jsIncludes (s pat : String) : Bool := listContainsSub pat.data s.data

/-- Join strings with newline separators (used to build concrete textarea
contents for evaluation). -/
def joinLines (l : List String) : String :=
  ⟨(List.intersperse ['\n'] (l.map String.data)).flatten⟩

/-- Embedded JavaScript `o || dflt` for an optional string field: `undefined`
and the empty string are falsy. -/
def jsOrStr (o : Option String) (dflt : String) : String :=
  match o with
  | some s => if s == "" then dflt else s
  | none => dflt

/-- The `Lead` record type declared in `frontend/app/page.tsx` (the same
thirteen fields the backend stores per lead). -/
structure Lead where
  urn : String
  name : String
  company_name : String
  company_website : String
  email : String
  title : String
  profile_url : String
  icp_fit_strength : String
  reason : String
  validation_judgement : String
  validation_reason : String
  profile_summary : String
  company_summary : String
deriving DecidableEq

/-- The `SkippedProfile` record type declared in `frontend/app/page.tsx`. -/
structure SkippedProfile where
  urn : String
  name : String
  reason : String
  profile_url : String
deriving DecidableEq

/-- The `progress` sub-object of a job-status response. -/
structure Progress where
  current : Nat
  total : Nat
  message : String
deriving DecidableEq

/-- The `JobStatus` response type declared in `frontend/app/page.tsx`:
the snapshot returned by `/api/job-status/{job_id}`. -/
structure JobStatusResp where
  job_id : String
  status : String
  progress : Progress
  results : List Lead
  skipped_profiles : List SkippedProfile
  error : Option String
deriving DecidableEq

/-- The React state of the dashboard page (`Home` in `frontend/app/page.tsx`)
relevant to job submission and polling; `pollingInterval` is `some period`
when a `setInterval` handle is held in `pollingIntervalRef`. -/
structure ClientState where
  isProcessing : Bool
  jobId : Option String
  jobStatus : Option JobStatusResp
  leads : List Lead
  skippedProfiles : List SkippedProfile
  error : String
  pollingInterval : Option Nat
deriving DecidableEq

/-- State transition of `pollJobStatus` in `frontend/app/page.tsx` on a
successfully fetched and parsed job-status response `d`: stores the snapshot,
updates leads/skipped incrementally when non-empty, and on a terminal status
(`completed` or `failed`) replaces the lists with the final snapshot
(respectively surfaces the error), stops processing and clears the polling
interval. -/
def pollJobStatus (s : ClientState) (d : JobStatusResp) : ClientState :=
  let s1 : ClientState := { s with jobStatus := some d }
  let s2 : ClientState :=
    if d.results.length > 0 then { s1 with leads := d.results } else s1
  let s3 : ClientState :=
    if d.skipped_profiles.length > 0 then { s2 with skippedProfiles := d.skipped_profiles }
    else s2
  if d.status = "completed" then
    { s3 with leads := d.results, skippedProfiles := d.skipped_profiles,
              isProcessing := false, pollingInterval := none }
  else if d.status = "failed" then
    { s3 with error := jsOrStr d.error "Job failed",
              isProcessing := false, pollingInterval := none }
  else s3

/-- Outcome of the `/api/process-post` fetch inside `handleSubmit`: the
request failed (non-ok response or thrown error), succeeded without a
`job_id`, or succeeded with a `job_id`. -/
inductive SubmitResponse
  | fetchFailed
  | okNoJobId
  | okJob (jobId : String)
deriving DecidableEq

/-- State transition of `handleSubmit` in `frontend/app/page.tsx`: clears
error and result state, clears any existing polling interval, then on a
successful submission records the job id, starts a 20000 ms polling interval
and issues one immediate poll (returned as the second component). -/
def homeHandleSubmit (s : ClientState) (resp : SubmitResponse) :
    ClientState × Option String :=
  let s0 : ClientState :=
    { s with error := "", isProcessing := true, leads := [], skippedProfiles := [],
             jobStatus := none, jobId := none, pollingInterval := none }
  match resp with
  | .fetchFailed =>
    ({ s0 with error := "Failed to start processing", isProcessing := false }, none)
  | .okNoJobId =>
    ({ s0 with error := "No job ID returned from server", isProcessing := false }, none)
  | .okJob j =>
    ({ s0 with jobId := some j, pollingInterval := some 20000 }, some j)

/-- The externally visible actions `handleSubmit` performs, in program
order. -/
inductive UIEvent
  | resetResults
  | clearPolling
  | startPolling (periodMs : Nat)
  | pollNow (jobId : String)
deriving DecidableEq

/-- Ordered trace of the actions of `handleSubmit` in
`frontend/app/page.tsx`: reset result state first, then clear the existing
polling interval when one is held, then (on success) start the new 20000 ms
interval and poll once immediately. -/
def homeSubmitEvents (hadInterval : Bool) (resp : SubmitResponse) : List UIEvent :=
  [UIEvent.resetResults]
    ++ (if hadInterval then [UIEvent.clearPolling] else [])
    ++ (match resp with
        | .okJob j => [UIEvent.startPolling 20000, UIEvent.pollNow j]
        | _ => [])

/-- Effect of one UI event on the number of live polling intervals. -/
def applyEvent (n : Nat) (e : UIEvent) : Nat :=
  match e with
  | .clearPolling => n - 1
  | .startPolling _ => n + 1
  | _ => n

/-- Number of live polling intervals after a trace of UI events. -/
def activeAfter (n : Nat) (es : List UIEvent) : Nat := es.foldl applyEvent n

/-- Outcome of `handleSubmit` in `frontend/app/manual-input/page.tsx` before
any network request: either a client-side validation error or the list of
URLs submitted to `/api/process-manual-profiles`. -/
inductive ManualSubmitResult
  | clientError (msg : String)
  | submit (urls : List String)
deriving DecidableEq

/-- URL parsing in `frontend/app/manual-input/page.tsx`: split the textarea
on newlines, trim each line, drop empty lines. -/
def parseManualUrls (s : String) : List String :=
  ((jsSplitLines s).map jsTrim).filter (fun u => u.length > 0)

/-- URL validation in `frontend/app/manual-input/page.tsx`:
`url.toLowerCase().includes('linkedin.com/in/')`. -/
def isLinkedInProfileUrl (u : String) : Bool :=
  jsIncludes (jsToLower u) "linkedin.com/in/"

/-- The client-side validation logic of `handleSubmit` in
`frontend/app/manual-input/page.tsx`: rejects an empty list, rejects more
than 100 URLs with an error, rejects invalid URLs, otherwise submits the
parsed list. -/
def manualInputHandleSubmit (profileUrls : String) : ManualSubmitResult :=
  let urls := parseManualUrls profileUrls
  if urls.length = 0 then
    .clientError "Please enter at least one LinkedIn profile URL"
  else if urls.length > 100 then
    .clientError "Maximum 100 profiles allowed per batch"
  else
    let invalidUrls := urls.filter (fun u => !(isLinkedInProfileUrl u))
    if invalidUrls.length > 0 then
      .clientError "Invalid LinkedIn URLs found. Make sure URLs contain \"linkedin.com/in/\""
    else .submit urls

/-- The custom-criteria object built by `handleSubmit` of the custom
evaluation page: required description plus four optional refinements, absent
fields omitted. -/
structure CustomCriteria where
  use_case_description : String
  target_roles : Option String
  target_industries : Option String
  company_size : Option String
  additional_requirements : Option String
deriving DecidableEq

/-- JavaScript string truthiness: non-empty. -/
def jsTruthy (s : String) : Bool := s != ""

/-- One optional criteria field as built by the custom evaluation page:
`if (x && x.trim()) obj.f = x.trim()`. -/
def optCriteriaField (x : String) : Option String :=
  if jsTruthy x && jsTruthy (jsTrim x) then some (jsTrim x) else none

/-- The `customCriteria` object assembled in `handleSubmit` of the custom
evaluation page: `use_case_description` always present, each optional field
present (with its trimmed value) only when its trimmed value is non-empty. -/
def buildCustomCriteria (useCaseDescription targetRoles targetIndustries
    companySize additionalRequirements : String) : CustomCriteria :=
  { use_case_description := useCaseDescription
    target_roles := optCriteriaField targetRoles
    target_industries := optCriteriaField targetIndustries
    company_size := optCriteriaField companySize
    additional_requirements := optCriteriaField additionalRequirements }

/-- Result of the Next.js middleware: pass the request through or redirect. -/
inductive MwResult
  | next
  | redirectTo (url : String)
deriving DecidableEq

/-- The `middleware` function of `frontend/middleware.ts`: API routes pass
through unconditionally; an authenticated request to `/login` is redirected
to `/`; an unauthenticated request to any other page is redirected to
`/login`; otherwise the request proceeds.  `authToken` is the value of the
`auth_token` cookie when present. -/
def middleware (authToken : Option String) (pathname : String) : MwResult :=
  let isAuthenticated := authToken == some "authenticated"
  let isLoginPage := pathname == "/login"
  let isApiRoute := jsStartsWith pathname "/api"
  if isApiRoute then .next
  else if isAuthenticated && isLoginPage then .redirectTo "/"
  else if !isAuthenticated && !isLoginPage then .redirectTo "/login"
  else .next

/-- Backend response as observed by the login proxy route: HTTP `ok` flag and
status, and the parsed JSON body's `success`, `detail` and `error` fields. -/
structure BackendResp where
  ok : Bool
  status : Nat
  success : Bool
  detail : Option String
  error : Option String
deriving DecidableEq

/-- The cookie set by `frontend/app/api/auth/login/route.ts` on success. -/
structure AuthCookie where
  name : String
  value : String
  httpOnly : Bool
  secure : Bool
  sameSite : String
  maxAge : Nat
  path : String
deriving DecidableEq

/-- Response of the login proxy route, including whether the backend was
contacted and which cookie (if any) was attached. -/
structure LoginResult where
  status : Nat
  success : Bool
  message : Option String
  errorMsg : Option String
  cookie : Option AuthCookie
  contactedBackend : Bool
deriving DecidableEq

/-- The exact cookie set by the login route: `auth_token=authenticated`,
httpOnly, `secure` in production, sameSite lax, maxAge `60*60*24*7` seconds,
path `/`. -/
def authCookie (isProd : Bool) : AuthCookie :=
  { name := "auth_token", value := "authenticated", httpOnly := true,
    secure := isProd, sameSite := "lax", maxAge := 60 * 60 * 24 * 7, path := "/" }

/-- JavaScript falsiness of the request body's `password` field: absent or
empty. -/
def jsFalsy (password : Option String) : Bool :=
  match password with
  | none => true
  | some s => s == ""

/-- The `POST` handler of `frontend/app/api/auth/login/route.ts`.
`parsedBody` is the outcome of `request.json()` (its `password` field when
parsing succeeds); `backend` is the outcome of the backend fetch (an
exception from `fetch` or `json()` is `.error`). -/
def loginPOST (parsedBody : Except Unit (Option String))
    (backend : Except Unit BackendResp) (isProd : Bool) : LoginResult :=
  match parsedBody with
  | .error _ =>
    { status := 500, success := false, message := none,
      errorMsg := some "Authentication service unavailable. Make sure backend is running.",
      cookie := none, contactedBackend := false }
  | .ok password =>
    if jsFalsy password then
      { status := 400, success := false, message := none,
        errorMsg := some "Password is required", cookie := none, contactedBackend := false }
    else
      match backend with
      | .error _ =>
        { status := 500, success := false, message := none,
          errorMsg := some "Authentication service unavailable. Make sure backend is running.",
          cookie := none, contactedBackend := true }
      | .ok r =>
        if r.ok && r.success then
          { status := 200, success := true, message := some "Authentication successful",
            errorMsg := none, cookie := some (authCookie isProd), contactedBackend := true }
        else
          { status := r.status, success := false, message := none,
            errorMsg := some (jsOrStr r.detail (jsOrStr r.error "Invalid password")),
            cookie := none, contactedBackend := true }

/-- Modelled from the spec: the fixed batch cap (`MAX_REACTORS_PER_POST = 100`
in `backend/workflow.py`, which is not in the source tree here); the batch
orchestrator processes only the first 100 identifiers. -/
def MAX_REACTORS_PER_POST : Nat := 100

/-- Modelled from the spec: the per-profile wall-clock budget
(`PROFILE_TIMEOUT_SECONDS = 180` in `backend/workflow.py`, not in the source
tree here). -/
def PROFILE_TIMEOUT_SECONDS : Nat := 180

/-- Modelled from the spec: fit-strength labels a parseable evaluator payload
can carry (spec section 3, Lead data model). -/
inductive FitStrength
  | high
  | medium
  | low
deriving DecidableEq

/-- Rendered fit-strength string. -/
def FitStrength.render : FitStrength → String
  | .high => "High"
  | .medium => "Medium"
  | .low => "Low"

/-- Modelled from the spec: validation judgements a parseable validator
payload can carry (spec section 3, Lead data model). -/
inductive Judgement
  | correct
  | incorrect
  | unsure
deriving DecidableEq

/-- Rendered judgement string. -/
def Judgement.render : Judgement → String
  | .correct => "Correct"
  | .incorrect => "Incorrect"
  | .unsure => "Unsure"

/-- Modelled from the spec: the structured payload the evaluator extracts
from the model output when a well-formed JSON object with the expected keys
is present. -/
structure EvalPayload where
  strength : FitStrength
  reason : String
deriving DecidableEq

/-- Modelled from the spec: the structured payload the validator extracts
from the second model's output. -/
structure ValPayload where
  judgement : Judgement
  reason : String
deriving DecidableEq

/-- Evaluation outcome as stored on the lead record. -/
structure EvalResult where
  strength : String
  reason : String
deriving DecidableEq

/-- Validation outcome as stored on the lead record. -/
structure ValResult where
  judgement : String
  reason : String
deriving DecidableEq

/-- Modelled from the spec: the evaluator (`evaluate_icp_fit` /
`evaluate_custom_use_case` in `backend/workflow.py`, not in the source tree
here).  The parse step is the argument: when no well-formed payload can be
extracted the evaluation degrades to an Unsure/empty-reason result rather
than raising (spec section 4.3). -/
def evaluate (parsed : Option EvalPayload) : EvalResult :=
  match parsed with
  | some p => { strength := p.strength.render, reason := p.reason }
  | none => { strength := "Unsure", reason := "" }

/-- Modelled from the spec: the validator (`validate_icp_evaluation` /
`validate_custom_evaluation` in `backend/workflow.py`, not in the source tree
here).  When validation cannot be parsed the judgement defaults to Unsure
with reason "validation unavailable" (spec section 4.3). -/
def validate (parsed : Option ValPayload) : ValResult :=
  match parsed with
  | some p => { judgement := p.judgement.render, reason := p.reason }
  | none => { judgement := "Unsure", reason := "validation unavailable" }

/-- Modelled from the spec: the rendered custom-criteria rubric
(`format_custom_criteria` in the backend, not in the source tree here): the
required description plus any present optional refinement, each rendered as
its own line only if present (spec sections 4.3 and 8). -/
def formatCustomCriteria (c : CustomCriteria) : List String :=
  ["Use case: " ++ c.use_case_description]
    ++ (match c.target_roles with
        | some v => ["Target roles: " ++ v]
        | none => [])
    ++ (match c.target_industries with
        | some v => ["Target industries: " ++ v]
        | none => [])
    ++ (match c.company_size with
        | some v => ["Company size: " ++ v]
        | none => [])
    ++ (match c.additional_requirements with
        | some v => ["Additional requirements: " ++ v]
        | none => [])

/-- Modelled from the spec: errors a pipeline stage can raise (spec
section 7 taxonomy, minus the timeout which the wrapper raises). -/
inductive PipelineError
  | notFound
  | upstreamError (msg : String)
  | parseError
deriving DecidableEq

/-- Modelled from the spec: the human-readable skip reason attached when a
stage fails (stage-specific reason, spec section 4.4). -/
def PipelineError.reason : PipelineError → String
  | .notFound => "Could not fetch profile data"
  | .upstreamError msg => "API error: " ++ msg
  | .parseError => "Model output could not be parsed"

/-- Modelled from the spec: the best-effort profile fields extracted from the
enrichment provider's documents. -/
structure ProfileData where
  fullName : String
  companyName : String
  companyWebsite : String
  email : String
  title : String
deriving DecidableEq

/-- Modelled from the spec: the behaviour of the external providers for one
identifier — how long the whole pipeline would take, what enrichment and
summarization return, and whether the evaluator's and validator's outputs
parse.  The pipeline itself is deterministic given this oracle. -/
structure ProfileRun where
  duration : Nat
  displayName : String
  profileUrl : String
  enrichment : Except PipelineError ProfileData
  summaries : Except PipelineError (String × String)
  evalParsed : Option EvalPayload
  valParsed : Option ValPayload

/-- Modelled from the spec: assembling the finished lead record keyed by the
identifier (spec section 3, Lead). -/
def mkLead (urn profileUrl : String) (pd : ProfileData) (ps cs : String)
    (ev : EvalResult) (vl : ValResult) : Lead :=
  { urn := urn, name := pd.fullName, company_name := pd.companyName,
    company_website := pd.companyWebsite, email := pd.email, title := pd.title,
    profile_url := profileUrl, icp_fit_strength := ev.strength,
    reason := ev.reason, validation_judgement := vl.judgement,
    validation_reason := vl.reason, profile_summary := ps, company_summary := cs }

/-- Modelled from the spec: the per-profile pipeline
Enriching → Summarizing → Evaluating → Validating (spec section 4.4); any
stage error becomes a stage-specific failure reason, while evaluator and
validator parse failures degrade to neutral defaults instead of failing. -/
def runPipeline (urn : String) (r : ProfileRun) : Except String Lead :=
  match r.enrichment with
  | .error e => .error e.reason
  | .ok pd =>
    match r.summaries with
    | .error e => .error e.reason
    | .ok (ps, cs) =>
      .ok (mkLead urn r.profileUrl pd ps cs (evaluate r.evalParsed) (validate r.valParsed))

/-- Modelled from the spec: the per-profile wall-clock budget wrapper
(spec section 4.4): if the pipeline would exceed `PROFILE_TIMEOUT_SECONDS`
the profile is abandoned with the timeout reason and none of its work is
kept; otherwise the pipeline's own outcome stands. -/
def runProfileWithTimeout (urn : String) (r : ProfileRun) : Except String Lead :=
  if PROFILE_TIMEOUT_SECONDS < r.duration then .error "Processing exceeded timeout"
  else runPipeline urn r

/-- Modelled from the spec: idempotent upsert into the record store keyed by
identifier (spec section 4.6). -/
def upsertLead (store : List Lead) (l : Lead) : List Lead :=
  if store.any (fun x => x.urn == l.urn) then
    store.map (fun x => if x.urn == l.urn then l else x)
  else store ++ [l]

/-- Accumulated batch accounting: produced leads, skipped profiles, and
identifiers silently skipped because they were already in the store. -/
structure BatchAcc where
  leads : List Lead
  skipped : List SkippedProfile
  deduplicated : List String
deriving DecidableEq

/-- Modelled from the spec: one step of the batch orchestrator loop (spec
section 4.5): a previously stored identifier is deduplicated silently;
otherwise the per-profile pipeline runs under the timeout wrapper, a success
is appended to the leads and persisted, a failure is appended to the skipped
list and nothing is persisted.  The accumulator travels with the store. -/
def batchStep (runs : String → ProfileRun) (st : BatchAcc × List Lead)
    (urn : String) : BatchAcc × List Lead :=
  let (acc, store) := st
  if store.any (fun x => x.urn == urn) then
    ({ acc with deduplicated := acc.deduplicated ++ [urn] }, store)
  else
    match runProfileWithTimeout urn (runs urn) with
    | .ok l => ({ acc with leads := acc.leads ++ [l] }, upsertLead store l)
    | .error reason =>
      ({ acc with skipped := acc.skipped ++
          [{ urn := urn, name := (runs urn).displayName, reason := reason,
             profile_url := (runs urn).profileUrl }] }, store)

/-- Modelled from the spec: the batch orchestrator (spec section 4.5): cap
the input list at `MAX_REACTORS_PER_POST` and fold the per-identifier step
over the capped list in input order. -/
def run_batch (identifiers : List String) (runs : String → ProfileRun)
    (store : List Lead) : BatchAcc × List Lead :=
  (identifiers.take MAX_REACTORS_PER_POST).foldl (batchStep runs) (⟨[], [], []⟩, store)

/-- The job record held in the in-memory registry (spec section 3, Job). -/
structure Job where
  status : String
  current : Nat
  total : Nat
  message : String
  results : List Lead
  skipped_profiles : List SkippedProfile
  error : Option String
deriving DecidableEq

/-- Modelled from the spec: the tracked batch entry point
(`process_linkedin_post_tracked` in `backend/workflow.py`, not in the source
tree here): a failure to fetch the identifier list at all fails the job
(`BatchFatalError`); otherwise the batch runs to completion and the job
completes with the accumulated lists. -/
def process_linkedin_post_tracked (fetchReactions : Except String (List String))
    (runs : String → ProfileRun) (store : List Lead) : Job × List Lead :=
  match fetchReactions with
  | .error msg =>
    ({ status := "failed", current := 0, total := 0, message := msg,
       results := [], skipped_profiles := [], error := some msg }, store)
  | .ok identifiers =>
    let capped := identifiers.take MAX_REACTORS_PER_POST
    let (acc, store') := run_batch identifiers runs store
    ({ status := "completed", current := capped.length, total := capped.length,
       message := "Processing completed successfully",
       results := acc.leads, skipped_profiles := acc.skipped, error := none }, store')

/-- Modelled from the spec: the job submission endpoint (`backend/main.py`,
not in the source tree here): registers a fresh job in `processing` state and
returns its identifier immediately; the orchestrator then runs
asynchronously. -/
def submit_job (registry : List (String × Job)) (newJobId : String) :
    String × List (String × Job) :=
  (newJobId,
    (newJobId,
      { status := "processing", current := 0, total := 0,
        message := "Starting processing", results := [],
        skipped_profiles := [], error := none }) :: registry)

/-- Modelled from the spec: the job status endpoint (`backend/main.py`, not
in the source tree here): looks the job up by identifier and returns its
snapshot without mutating the registry. -/
def job_status_endpoint (registry : List (String × Job)) (jobId : String) :
    Option Job × List (String × Job) :=
  ((registry.find? (fun p => p.1 == jobId)).map Prod.snd, registry)

/-- A concrete profile-data value used when instantiating theorems on
concrete inputs. -/
def samplePD : ProfileData :=
  { fullName := "Jane Doe", companyName := "Acme", companyWebsite := "https://acme.example",
    email := "jane@acme.example", title := "VP People" }

/-- A concrete, fully successful provider behaviour taking `d` seconds. -/
def sampleRun (d : Nat) : ProfileRun :=
  { duration := d, displayName := "Jane Doe",
    profileUrl := "https://linkedin.com/in/jane",
    enrichment := .ok samplePD, summaries := .ok ("profile summary", "company summary"),
    evalParsed := some ⟨.high, "strong fit"⟩, valParsed := some ⟨.correct, "agrees"⟩ }

/-- A concrete provider behaviour whose evaluator output does not parse. -/
def runEvalUnparsed : ProfileRun :=
  { sampleRun 10 with evalParsed := none }

/-- A lead's enumerated-values invariant: fit-strength and
validation-judgement each take one of the values the frontend renders
(including the neutral Unsure default). -/
def enumeratedLead (x : Lead) : Bool :=
  (x.icp_fit_strength == "High" || x.icp_fit_strength == "Medium"
      || x.icp_fit_strength == "Low" || x.icp_fit_strength == "Unsure")
    && (x.validation_judgement == "Correct" || x.validation_judgement == "Incorrect"
      || x.validation_judgement == "Unsure")

/-- A concrete job-status response with the given status, used to instantiate
theorems on concrete inputs. -/
def sampleStatus (st : String) : JobStatusResp :=
  { job_id := "j1", status := st, progress := ⟨1, 1, "working"⟩,
    results := [], skipped_profiles := [], error := some "boom" }

/-- A concrete client state before any job. -/
def emptyClient : ClientState :=
  { isProcessing := false, jobId := none, jobStatus := none, leads := [],
    skippedProfiles := [], error := "", pollingInterval := none }

/-- A concrete successful backend authentication response. -/
def okBackend : BackendResp :=
  { ok := true, status := 200, success := true, detail := none, error := none }

/-- A concrete rejected backend authentication response. -/
def badBackend : BackendResp :=
  { ok := false, status := 401, success := false, detail := none,
    error := some "Invalid password" }

/-! ### Theorems -/

/-- One orchestrator step accounts for exactly one identifier, in exactly one
of the three buckets. -/
theorem batchStep_fst_count (runs : String → ProfileRun) (acc : BatchAcc)
    (store : List Lead) (u : String) :
    (batchStep runs (acc, store) u).1.leads.length
      + (batchStep runs (acc, store) u).1.skipped.length
      + (batchStep runs (acc, store) u).1.deduplicated.length
    = acc.leads.length + acc.skipped.length + acc.deduplicated.length + 1 := by
  unfold batchStep
  rcases h : store.any (fun x => x.urn == u) with _ | _
  · rcases hr : runProfileWithTimeout u (runs u) with e | l <;> simp [h, hr] <;> omega
  · simp [h]
    omega

/-- Folding the orchestrator step over a list accounts for every element. -/
theorem foldl_batchStep_count (runs : String → ProfileRun) (l : List String) :
    ∀ st : BatchAcc × List Lead,
      (l.foldl (batchStep runs) st).1.leads.length
        + (l.foldl (batchStep runs) st).1.skipped.length
        + (l.foldl (batchStep runs) st).1.deduplicated.length
      = st.1.leads.length + st.1.skipped.length + st.1.deduplicated.length + l.length := by
  induction l with
  | nil => intro st; simp
  | cons u t ih =>
    intro st
    simp only [List.foldl_cons, List.length_cons]
    rw [ih (batchStep runs st u)]
    have h1 := batchStep_fst_count runs st.1 st.2 u
    rw [Prod.mk.eta] at h1
    omega

/-- Claim C3: at job completion every capped input identifier is accounted in
exactly one of the three buckets, so the count of leads plus the count of
skipped profiles plus the count of deduplicated identifiers equals the
length of the capped input list. -/
theorem C3_partition_count (identifiers : List String) (runs : String → ProfileRun)
    (store : List Lead) :
    (run_batch identifiers runs store).1.leads.length
      + (run_batch identifiers runs store).1.skipped.length
      + (run_batch identifiers runs store).1.deduplicated.length
    = (identifiers.take MAX_REACTORS_PER_POST).length := by
  unfold run_batch
  rw [foldl_batchStep_count]
  simp

/-- Claim C1 (amended): the batch orchestrator caps the identifier list at
`MAX_REACTORS_PER_POST` (100) and processes exactly the first 100, silently
ignoring the excess; the manual-input client path, however, rejects a
submission of more than 100 parsed URLs with the error "Maximum 100 profiles
allowed per batch" instead of submitting a truncated list, and submits the
full parsed list whenever it is non-empty, within the cap and entirely made
of valid profile URLs. -/
theorem C1_cap_amended :
    (∀ (identifiers : List String) (runs : String → ProfileRun) (store : List Lead),
        run_batch identifiers runs store
          = run_batch (identifiers.take MAX_REACTORS_PER_POST) runs store)
    ∧ (∀ s : String, 100 < (parseManualUrls s).length →
        manualInputHandleSubmit s
          = ManualSubmitResult.clientError "Maximum 100 profiles allowed per batch")
    ∧ (∀ s : String, 0 < (parseManualUrls s).length → (parseManualUrls s).length ≤ 100 →
        (∀ u ∈ parseManualUrls s, isLinkedInProfileUrl u = true) →
        manualInputHandleSubmit s = ManualSubmitResult.submit (parseManualUrls s)) := by
  refine ⟨?_, ?_, ?_⟩
  · intro ids runs store
    unfold run_batch
    rw [List.take_take, min_self]
  · intro s h
    unfold manualInputHandleSubmit
    have h0 : ¬ (parseManualUrls s).length = 0 := by omega
    simp [h0, h]
  · intro s h1 h2 h3
    unfold manualInputHandleSubmit
    have h0 : ¬ (parseManualUrls s).length = 0 := by omega
    have hgt : ¬ (parseManualUrls s).length > 100 := by omega
    have hf : (parseManualUrls s).filter (fun u => !(isLinkedInProfileUrl u)) = [] := by
      rw [List.filter_eq_nil_iff]
      intro u hu
      simp [h3 u hu]
    simp [h0, hgt, hf]

/-- Claim C1 (counterexample): submitting 101 profile URLs through the
manual-input page's `handleSubmit` is turned into a client-side error rather
than a submission of the first 100. -/
theorem C1_counterexample :
    manualInputHandleSubmit (joinLines (List.replicate 101 "https://linkedin.com/in/u"))
      = ManualSubmitResult.clientError "Maximum 100 profiles allowed per batch" := by
  decide

/-- Claim C1 (witness): the amended theorem applied at concrete inputs — a
101-URL textarea is rejected with the cap error, a single valid URL is
submitted as-is. -/
theorem C1_cap_amended_witness :
    manualInputHandleSubmit (joinLines (List.replicate 101 "https://linkedin.com/in/u"))
      = ManualSubmitResult.clientError "Maximum 100 profiles allowed per batch"
    ∧ manualInputHandleSubmit "https://linkedin.com/in/alice"
      = ManualSubmitResult.submit ["https://linkedin.com/in/alice"] :=
  ⟨C1_cap_amended.2.1 _ (by decide),
   C1_cap_amended.2.2 _ (by decide) (by decide) (by decide)⟩

/-- Claim C2: a profile whose pipeline exceeds the 180-second wall-clock
budget is abandoned with the timeout-specific reason, none of its work is
persisted, it is recorded as a SkippedProfile, the batch proceeds to the next
identifier, and no error raised inside a profile's pipeline ever aborts the
batch — the job always completes once the identifier list was fetched. -/
theorem C2_timeout_skip :
    (∀ (urn : String) (r : ProfileRun), PROFILE_TIMEOUT_SECONDS < r.duration →
        runProfileWithTimeout urn r = Except.error "Processing exceeded timeout")
    ∧ (∀ (runs : String → ProfileRun) (acc : BatchAcc) (store : List Lead) (u : String),
        store.any (fun x => x.urn == u) = false →
        PROFILE_TIMEOUT_SECONDS < (runs u).duration →
        batchStep runs (acc, store) u
          = ({ acc with skipped := acc.skipped ++
                [{ urn := u, name := (runs u).displayName,
                   reason := "Processing exceeded timeout",
                   profile_url := (runs u).profileUrl }] }, store))
    ∧ (∀ (runs : String → ProfileRun) (store : List Lead) (u : String) (rest : List String),
        store.any (fun x => x.urn == u) = false →
        PROFILE_TIMEOUT_SECONDS < (runs u).duration →
        run_batch (u :: rest) runs store
          = (rest.take 99).foldl (batchStep runs)
              (⟨[], [{ urn := u, name := (runs u).displayName,
                       reason := "Processing exceeded timeout",
                       profile_url := (runs u).profileUrl }], []⟩, store))
    ∧ (∀ (identifiers : List String) (runs : String → ProfileRun) (store : List Lead),
        (process_linkedin_post_tracked (Except.ok identifiers) runs store).1.status
          = "completed") := by
  have htime : ∀ (urn : String) (r : ProfileRun), PROFILE_TIMEOUT_SECONDS < r.duration →
      runProfileWithTimeout urn r = Except.error "Processing exceeded timeout" := by
    intro urn r h
    simp [runProfileWithTimeout, h]
  have hstep : ∀ (runs : String → ProfileRun) (acc : BatchAcc) (store : List Lead) (u : String),
      store.any (fun x => x.urn == u) = false →
      PROFILE_TIMEOUT_SECONDS < (runs u).duration →
      batchStep runs (acc, store) u
        = ({ acc with skipped := acc.skipped ++
              [{ urn := u, name := (runs u).displayName,
                 reason := "Processing exceeded timeout",
                 profile_url := (runs u).profileUrl }] }, store) := by
    intro runs acc store u h ht
    simp [batchStep, h, htime u (runs u) ht]
  refine ⟨htime, hstep, ?_, ?_⟩
  · intro runs store u rest h ht
    unfold run_batch
    have hc : (u :: rest).take MAX_REACTORS_PER_POST = u :: rest.take 99 := rfl
    rw [hc, List.foldl_cons, hstep runs ⟨[], [], []⟩ store u h ht]
    rfl
  · intro identifiers runs store
    rcases hb : run_batch identifiers runs store with ⟨acc, store'⟩
    simp [process_linkedin_post_tracked, hb]

/-- Claim C2 (witness): concrete instantiations — a 181-second profile is
abandoned with the timeout reason, recorded as skipped with the store left
untouched, the next identifier is still folded over, and the job completes. -/
theorem C2_timeout_skip_witness :
    runProfileWithTimeout "u1" (sampleRun 181) = Except.error "Processing exceeded timeout"
    ∧ batchStep (fun _ => sampleRun 181) (⟨[], [], []⟩, []) "u1"
        = (⟨[], [{ urn := "u1", name := "Jane Doe",
                   reason := "Processing exceeded timeout",
                   profile_url := "https://linkedin.com/in/jane" }], []⟩, [])
    ∧ run_batch ["u1", "u2"] (fun _ => sampleRun 181) []
        = (["u2"].take 99).foldl (batchStep (fun _ => sampleRun 181))
            (⟨[], [{ urn := "u1", name := "Jane Doe",
                     reason := "Processing exceeded timeout",
                     profile_url := "https://linkedin.com/in/jane" }], []⟩, [])
    ∧ (process_linkedin_post_tracked (Except.ok ["u1"]) (fun _ => sampleRun 181) []).1.status
        = "completed" :=
  ⟨C2_timeout_skip.1 "u1" (sampleRun 181) (by decide),
   C2_timeout_skip.2.1 (fun _ => sampleRun 181) ⟨[], [], []⟩ [] "u1" (by decide) (by decide),
   C2_timeout_skip.2.2.1 (fun _ => sampleRun 181) [] "u1" ["u2"] (by decide) (by decide),
   C2_timeout_skip.2.2.2 ["u1"] (fun _ => sampleRun 181) []⟩

/-- An optional criteria field whose trimmed value is empty is omitted. -/
theorem optCriteriaField_none (x : String) (h : jsTrim x = "") :
    optCriteriaField x = none := by
  simp [optCriteriaField, jsTruthy, h]

/-- An optional criteria field whose trimmed value is non-empty is included
with its trimmed value. -/
theorem optCriteriaField_some (x : String) (h : jsTrim x ≠ "") :
    optCriteriaField x = some (jsTrim x) := by
  have hx : x ≠ "" := by
    intro he
    subst he
    exact h (by decide)
  simp [optCriteriaField, jsTruthy, h, hx]

/-- Claim C4: each optional refinement field contributes to the criteria
object exactly when its trimmed value is non-empty, and then with its trimmed
value; with all optional fields empty the criteria object carries only the
use-case description, and the rendered rubric then has a single line with no
placeholders for the omitted fields. -/
theorem C4_custom_criteria (u r ind cs ar : String) :
    ((buildCustomCriteria u r ind cs ar).use_case_description = u)
    ∧ (jsTrim r = "" → (buildCustomCriteria u r ind cs ar).target_roles = none)
    ∧ (jsTrim r ≠ "" → (buildCustomCriteria u r ind cs ar).target_roles = some (jsTrim r))
    ∧ (jsTrim ind = "" → (buildCustomCriteria u r ind cs ar).target_industries = none)
    ∧ (jsTrim ind ≠ "" →
        (buildCustomCriteria u r ind cs ar).target_industries = some (jsTrim ind))
    ∧ (jsTrim cs = "" → (buildCustomCriteria u r ind cs ar).company_size = none)
    ∧ (jsTrim cs ≠ "" → (buildCustomCriteria u r ind cs ar).company_size = some (jsTrim cs))
    ∧ (jsTrim ar = "" → (buildCustomCriteria u r ind cs ar).additional_requirements = none)
    ∧ (jsTrim ar ≠ "" →
        (buildCustomCriteria u r ind cs ar).additional_requirements = some (jsTrim ar))
    ∧ (buildCustomCriteria u "" "" "" ""
        = { use_case_description := u, target_roles := none, target_industries := none,
            company_size := none, additional_requirements := none })
    ∧ (formatCustomCriteria (buildCustomCriteria u "" "" "" "") = ["Use case: " ++ u]) := by
  have hempty : optCriteriaField "" = none := optCriteriaField_none "" (by decide)
  refine ⟨rfl, ?_, ?_, ?_, ?_, ?_, ?_, ?_, ?_, ?_, ?_⟩
  · intro h; simp [buildCustomCriteria, optCriteriaField_none r h]
  · intro h; simp [buildCustomCriteria, optCriteriaField_some r h]
  · intro h; simp [buildCustomCriteria, optCriteriaField_none ind h]
  · intro h; simp [buildCustomCriteria, optCriteriaField_some ind h]
  · intro h; simp [buildCustomCriteria, optCriteriaField_none cs h]
  · intro h; simp [buildCustomCriteria, optCriteriaField_some cs h]
  · intro h; simp [buildCustomCriteria, optCriteriaField_none ar h]
  · intro h; simp [buildCustomCriteria, optCriteriaField_some ar h]
  · simp [buildCustomCriteria, hempty]
  · simp [buildCustomCriteria, formatCustomCriteria, hempty]

/-- Claim C4 (witness): concrete instantiations — a padded optional value is
included trimmed, a whitespace-only optional value is omitted, and with all
optional fields empty the rubric is a single line. -/
theorem C4_custom_criteria_witness :
    (buildCustomCriteria "find HR buyers" " HR Director " "" "  " "").target_roles
        = some "HR Director"
    ∧ (buildCustomCriteria "find HR buyers" " HR Director " "" "  " "").company_size = none
    ∧ formatCustomCriteria (buildCustomCriteria "find HR buyers" "" "" "" "")
        = ["Use case: find HR buyers"] :=
  ⟨(C4_custom_criteria "find HR buyers" " HR Director " "" "  " "").2.2.1 (by decide),
   (C4_custom_criteria "find HR buyers" " HR Director " "" "  " "").2.2.2.2.2.1 (by decide),
   (C4_custom_criteria "find HR buyers" "" "" "" "").2.2.2.2.2.2.2.2.2.2⟩

/-- Claim C5: a poll response with a terminal status stops the polling — the
interval is cleared (so no further polls fire for the job) and processing
ends; on `completed` the leads and skipped lists are replaced by the final
snapshot, and on `failed` the job's error text is surfaced. -/
theorem C5_terminal_poll (s : ClientState) (d : JobStatusResp) :
    (d.status = "completed" ∨ d.status = "failed" →
        (pollJobStatus s d).pollingInterval = none
        ∧ (pollJobStatus s d).isProcessing = false)
    ∧ (d.status = "completed" →
        (pollJobStatus s d).leads = d.results
        ∧ (pollJobStatus s d).skippedProfiles = d.skipped_profiles)
    ∧ (d.status = "failed" → (pollJobStatus s d).error = jsOrStr d.error "Job failed") := by
  unfold pollJobStatus
  by_cases h1 : d.status = "completed"
  · simp [h1]
  · by_cases h2 : d.status = "failed"
    · simp [h1, h2]
    · simp [h1, h2]

/-- Claim C5 (witness): the theorem applied to a concrete completed and a
concrete failed response. -/
theorem C5_terminal_poll_witness :
    (pollJobStatus emptyClient (sampleStatus "completed")).pollingInterval = none
    ∧ (pollJobStatus emptyClient (sampleStatus "completed")).leads = []
    ∧ (pollJobStatus emptyClient (sampleStatus "failed")).error = "boom" :=
  ⟨((C5_terminal_poll emptyClient (sampleStatus "completed")).1 (Or.inl rfl)).1,
   ((C5_terminal_poll emptyClient (sampleStatus "completed")).2.1 rfl).1,
   (C5_terminal_poll emptyClient (sampleStatus "failed")).2.2 rfl⟩

/-- The evaluator's stored strength is always one of the three labels or the
Unsure fallback. -/
theorem evaluate_strength_enum (p : Option EvalPayload) :
    (evaluate p).strength = "High" ∨ (evaluate p).strength = "Medium"
      ∨ (evaluate p).strength = "Low" ∨ (evaluate p).strength = "Unsure" := by
  rcases p with _ | ⟨st, r⟩
  · simp [evaluate]
  · cases st <;> simp [evaluate, FitStrength.render]

/-- The validator's stored judgement is always one of the enumerated
values. -/
theorem validate_judgement_enum (p : Option ValPayload) :
    (validate p).judgement = "Correct" ∨ (validate p).judgement = "Incorrect"
      ∨ (validate p).judgement = "Unsure" := by
  rcases p with _ | ⟨j, r⟩
  · simp [validate]
  · cases j <;> simp [validate, Judgement.render]

/-- Every lead assembled by the pipeline satisfies the enumerated-values
invariant. -/
theorem enumeratedLead_mkLead (urn purl : String) (pd : ProfileData) (ps cs : String)
    (ep : Option EvalPayload) (vp : Option ValPayload) :
    enumeratedLead (mkLead urn purl pd ps cs (evaluate ep) (validate vp)) = true := by
  have h1 := evaluate_strength_enum ep
  have h2 := validate_judgement_enum vp
  simp only [enumeratedLead, mkLead]
  rcases h1 with h | h | h | h <;> rcases h2 with g | g | g <;> simp [h, g]

/-- A successful timeout-wrapped pipeline run yields a lead assembled by
`mkLead` from the run's oracle. -/
theorem runProfileWithTimeout_ok (urn : String) (r : ProfileRun) (l : Lead)
    (h : runProfileWithTimeout urn r = Except.ok l) :
    enumeratedLead l = true := by
  unfold runProfileWithTimeout runPipeline at h
  by_cases htime : PROFILE_TIMEOUT_SECONDS < r.duration
  · simp [htime] at h
  · simp only [htime, if_false] at h
    rcases he : r.enrichment with e2 | pd
    · simp [he] at h
    · rcases hs : r.summaries with e3 | ⟨ps, cs⟩
      · simp [he, hs] at h
      · simp [he, hs] at h
        exact h ▸ enumeratedLead_mkLead urn r.profileUrl pd ps cs r.evalParsed r.valParsed

/-- The enumerated-values invariant on produced leads is preserved by the
orchestrator fold. -/
theorem foldl_batchStep_enumerated (runs : String → ProfileRun) (l : List String) :
    ∀ st : BatchAcc × List Lead,
      (∀ x ∈ st.1.leads, enumeratedLead x = true) →
      ∀ x ∈ (l.foldl (batchStep runs) st).1.leads, enumeratedLead x = true := by
  induction l with
  | nil => intro st h; simpa using h
  | cons u t ih =>
    intro st h
    simp only [List.foldl_cons]
    apply ih
    rcases st with ⟨acc, store⟩
    rcases hd : store.any (fun x => x.urn == u) with _ | _
    · rcases hr : runProfileWithTimeout u (runs u) with e | l'
      · simpa [batchStep, hd, hr] using h
      · have hl := runProfileWithTimeout_ok u (runs u) l' hr
        intro x hx
        simp [batchStep, hd, hr] at hx
        rcases hx with hx | hx
        · exact h x hx
        · exact hx ▸ hl
    · simpa [batchStep, hd] using h

/-- Claim C6 (amended): every lead the batch produces has a fit-strength in
High/Medium/Low/Unsure and a validation-judgement in
Correct/Incorrect/Unsure; an unparseable evaluator output degrades to
Unsure with an empty reason, and an unparseable validator output degrades to
Unsure with reason "validation unavailable", rather than leaving the fields
empty or blocking the lead. -/
theorem C6_enumerated_defaults :
    (evaluate none = { strength := "Unsure", reason := "" })
    ∧ (validate none = { judgement := "Unsure", reason := "validation unavailable" })
    ∧ (∀ p, (evaluate p).strength = "High" ∨ (evaluate p).strength = "Medium"
        ∨ (evaluate p).strength = "Low" ∨ (evaluate p).strength = "Unsure")
    ∧ (∀ p, (validate p).judgement = "Correct" ∨ (validate p).judgement = "Incorrect"
        ∨ (validate p).judgement = "Unsure")
    ∧ (∀ (identifiers : List String) (runs : String → ProfileRun) (store : List Lead),
        ∀ x ∈ (run_batch identifiers runs store).1.leads, enumeratedLead x = true) := by
  refine ⟨rfl, rfl, evaluate_strength_enum, validate_judgement_enum, ?_⟩
  intro identifiers runs store
  exact foldl_batchStep_enumerated runs (identifiers.take MAX_REACTORS_PER_POST)
    (⟨[], [], []⟩, store) (by simp)

/-- Claim C6 (counterexample): a batch whose evaluator output does not parse
stores a lead whose fit-strength is the string "Unsure", which is not one of
High/Medium/Low — so a stored lead's fit-strength is not always one of those
three values. -/
theorem C6_counterexample :
    (run_batch ["u1"] (fun _ => runEvalUnparsed) []).1.leads.map Lead.icp_fit_strength
        = ["Unsure"]
    ∧ ¬ ("Unsure" = "High" ∨ "Unsure" = "Medium" ∨ "Unsure" = "Low") := by
  exact ⟨rfl, by decide⟩

/-- Claim C6 (witness): the amended theorem applied to the concrete lead the
unparseable-evaluator batch produces. -/
theorem C6_enumerated_defaults_witness :
    enumeratedLead (mkLead "u1" "https://linkedin.com/in/jane" samplePD
      "profile summary" "company summary" (evaluate none)
      (validate (some ⟨Judgement.correct, "agrees"⟩))) = true :=
  C6_enumerated_defaults.2.2.2.2 ["u1"] (fun _ => runEvalUnparsed) [] _ (by decide)

/-- Claim C7: submitting a batch returns the job identifier immediately with
the job registered as processing; the client then holds a 20000 ms polling
interval and issues one immediate poll for that job; and the status endpoint
returns the snapshot without mutating the registry (no side effects). -/
theorem C7_submit_and_poll (registry : List (String × Job)) (newJobId jobId : String)
    (s : ClientState) (j : String) :
    (submit_job registry newJobId).1 = newJobId
    ∧ ((submit_job registry newJobId).2.find? (fun p => p.1 == newJobId)).map
        (fun p => p.2.status) = some "processing"
    ∧ (job_status_endpoint registry jobId).2 = registry
    ∧ (homeHandleSubmit s (SubmitResponse.okJob j)).1.jobId = some j
    ∧ (homeHandleSubmit s (SubmitResponse.okJob j)).1.pollingInterval = some 20000
    ∧ (homeHandleSubmit s (SubmitResponse.okJob j)).2 = some j := by
  refine ⟨rfl, ?_, rfl, rfl, rfl, rfl⟩
  simp [submit_job]

/-- Claim C8: the authentication middleware lets every request whose path
starts with "/api" through unconditionally, redirects an unauthenticated
request to any non-login page to "/login", and redirects an authenticated
request to "/login" to "/". -/
theorem C8_middleware (authToken : Option String) (pathname : String) :
    (jsStartsWith pathname "/api" = true → middleware authToken pathname = MwResult.next)
    ∧ (jsStartsWith pathname "/api" = false → authToken ≠ some "authenticated" →
        pathname ≠ "/login" → middleware authToken pathname = MwResult.redirectTo "/login")
    ∧ (jsStartsWith pathname "/api" = false → authToken = some "authenticated" →
        pathname = "/login" → middleware authToken pathname = MwResult.redirectTo "/") := by
  refine ⟨?_, ?_, ?_⟩
  · intro h
    simp [middleware, h]
  · intro h h2 h3
    simp [middleware, h, h2, h3]
  · intro h h2 h3
    subst h3
    subst h2
    simp [middleware, h]

/-- Claim C8 (witness): the theorem applied to an API path, an
unauthenticated page request and an authenticated login request. -/
theorem C8_middleware_witness :
    middleware none "/api/job-status/abc" = MwResult.next
    ∧ middleware none "/" = MwResult.redirectTo "/login"
    ∧ middleware (some "authenticated") "/login" = MwResult.redirectTo "/" :=
  ⟨(C8_middleware none "/api/job-status/abc").1 (by decide),
   (C8_middleware none "/").2.1 (by decide) (by decide) (by decide),
   (C8_middleware (some "authenticated") "/login").2.2 (by decide) rfl rfl⟩

/-- Claim C9: the login proxy returns 400 with "Password is required" and no
backend contact when the password is missing or empty; it attaches the
`auth_token=authenticated` cookie (httpOnly, sameSite lax, maxAge 604800,
path "/") exactly when the backend response is ok and reports success;
otherwise it passes the backend's error text and status through; and an
unexpected exception yields status 500 with no cookie. -/
theorem C9_login_route (backend : Except Unit BackendResp) (isProd : Bool) :
    (∀ pw, jsFalsy pw = true →
        loginPOST (Except.ok pw) backend isProd
          = { status := 400, success := false, message := none,
              errorMsg := some "Password is required", cookie := none,
              contactedBackend := false })
    ∧ (∀ pw r, jsFalsy pw = false → backend = Except.ok r →
        (r.ok && r.success) = true →
        loginPOST (Except.ok pw) backend isProd
          = { status := 200, success := true, message := some "Authentication successful",
              errorMsg := none, cookie := some (authCookie isProd),
              contactedBackend := true })
    ∧ (∀ pw r, jsFalsy pw = false → backend = Except.ok r →
        (r.ok && r.success) = false →
        loginPOST (Except.ok pw) backend isProd
          = { status := r.status, success := false, message := none,
              errorMsg := some (jsOrStr r.detail (jsOrStr r.error "Invalid password")),
              cookie := none, contactedBackend := true })
    ∧ (∀ parsed, (loginPOST parsed backend isProd).cookie ≠ none →
        (loginPOST parsed backend isProd).cookie = some (authCookie isProd)
        ∧ ∃ pw r, parsed = Except.ok pw ∧ jsFalsy pw = false
            ∧ backend = Except.ok r ∧ (r.ok && r.success) = true)
    ∧ (∀ e : Unit, (loginPOST (Except.error e) backend isProd).status = 500
        ∧ (loginPOST (Except.error e) backend isProd).cookie = none
        ∧ (loginPOST (Except.error e) backend isProd).contactedBackend = false)
    ∧ (∀ pw, jsFalsy pw = false → backend = Except.error () →
        (loginPOST (Except.ok pw) backend isProd).status = 500
        ∧ (loginPOST (Except.ok pw) backend isProd).cookie = none)
    ∧ ((authCookie isProd).name = "auth_token" ∧ (authCookie isProd).value = "authenticated"
        ∧ (authCookie isProd).httpOnly = true ∧ (authCookie isProd).sameSite = "lax"
        ∧ (authCookie isProd).maxAge = 604800 ∧ (authCookie isProd).path = "/") := by
  refine ⟨?_, ?_, ?_, ?_, ?_, ?_, ?_⟩
  · intro pw h
    simp [loginPOST, h]
  · intro pw r h hb hok
    subst hb
    simp [loginPOST, h, hok]
  · intro pw r h hb hok
    subst hb
    simp [loginPOST, h, hok]
  · intro parsed h
    rcases parsed with e | pw
    · simp [loginPOST] at h
    · rcases hf : jsFalsy pw with _ | _
      · rcases hbk : backend with e2 | r
        · subst hbk; simp [loginPOST, hf] at h
        · rcases hok : (r.ok && r.success) with _ | _
          · subst hbk; simp [loginPOST, hf, hok] at h
          · subst hbk
            exact ⟨by simp [loginPOST, hf, hok], pw, r, rfl, hf, rfl, hok⟩
      · simp [loginPOST, hf] at h
  · intro e
    simp [loginPOST]
  · intro pw h hb
    subst hb
    simp [loginPOST, h]
  · exact ⟨rfl, rfl, rfl, rfl, rfl, rfl⟩

/-- Claim C9 (witness): the theorem applied to a missing password, a
successful backend response, a rejected backend response, and a parse
exception. -/
theorem C9_login_route_witness :
    loginPOST (Except.ok none) (Except.ok okBackend) false
      = { status := 400, success := false, message := none,
          errorMsg := some "Password is required", cookie := none,
          contactedBackend := false }
    ∧ loginPOST (Except.ok (some "pw")) (Except.ok okBackend) false
      = { status := 200, success := true, message := some "Authentication successful",
          errorMsg := none, cookie := some (authCookie false), contactedBackend := true }
    ∧ loginPOST (Except.ok (some "pw")) (Except.ok badBackend) false
      = { status := 401, success := false, message := none,
          errorMsg := some "Invalid password", cookie := none, contactedBackend := true }
    ∧ (loginPOST (Except.error ()) (Except.ok okBackend) false).status = 500 :=
  ⟨(C9_login_route (Except.ok okBackend) false).1 none (by decide),
   (C9_login_route (Except.ok okBackend) false).2.1 (some "pw") okBackend (by decide) rfl
     (by decide),
   (C9_login_route (Except.ok badBackend) false).2.2.1 (some "pw") badBackend (by decide) rfl
     (by decide),
   ((C9_login_route (Except.ok okBackend) false).2.2.2.2.1 ()).1⟩

/-- Claim C10: a new submission resets all result state (leads, skipped,
job status, job id cleared; error cleared on the success path) and clears any
existing polling interval before starting the new one, so along the whole
event trace at most one polling interval is live; and a later poll only ever
replaces the result lists wholesale, never mixing them with a previous
job's. -/
theorem C10_reset_before_new_poll :
    (∀ (hadInterval : Bool) (resp : SubmitResponse) (k : Nat),
        activeAfter (if hadInterval then 1 else 0)
          ((homeSubmitEvents hadInterval resp).take k) ≤ 1)
    ∧ (∀ j, homeSubmitEvents true (SubmitResponse.okJob j)
        = [UIEvent.resetResults, UIEvent.clearPolling,
           UIEvent.startPolling 20000, UIEvent.pollNow j])
    ∧ (∀ (s : ClientState) (resp : SubmitResponse),
        (homeHandleSubmit s resp).1.leads = []
        ∧ (homeHandleSubmit s resp).1.skippedProfiles = []
        ∧ (homeHandleSubmit s resp).1.jobStatus = none)
    ∧ (∀ (s : ClientState) (j : String),
        (homeHandleSubmit s (SubmitResponse.okJob j)).1.error = ""
        ∧ (homeHandleSubmit s (SubmitResponse.okJob j)).1.jobId = some j)
    ∧ (∀ (s : ClientState) (d : JobStatusResp),
        (pollJobStatus s d).leads = s.leads ∨ (pollJobStatus s d).leads = d.results)
    ∧ (∀ (s : ClientState) (d : JobStatusResp),
        (pollJobStatus s d).skippedProfiles = s.skippedProfiles
          ∨ (pollJobStatus s d).skippedProfiles = d.skipped_profiles) := by
  refine ⟨?_, ?_, ?_, ?_, ?_, ?_⟩
  · intro hadInterval resp k
    cases hadInterval <;> cases resp <;>
      rcases k with _ | _ | _ | _ | k <;>
        simp [homeSubmitEvents, activeAfter, applyEvent, List.take_succ_cons]
  · intro j
    rfl
  · intro s resp
    cases resp <;> exact ⟨rfl, rfl, rfl⟩
  · intro s j
    exact ⟨rfl, rfl⟩
  · intro s d
    unfold pollJobStatus
    by_cases h1 : d.status = "completed"
    · simp [h1]
    · by_cases h2 : d.status = "failed" <;> by_cases h3 : d.results.length > 0 <;>
        by_cases h4 : d.skipped_profiles.length > 0 <;> simp [h1, h2, h3, h4]
  · intro s d
    unfold pollJobStatus
    by_cases h1 : d.status = "completed"
    · simp [h1]
    · by_cases h2 : d.status = "failed" <;> by_cases h3 : d.results.length > 0 <;>
        by_cases h4 : d.skipped_profiles.length > 0 <;> simp [h1, h2, h3, h4]

end LinkedInICP
